import Mathlib

/-!
Shallow embedding of the `umanager` USB device/storage directory services,
the device change watcher, and the state-manager refresh aggregation,
translated from `src/umanager/backend/device/base_service.py`,
`src/umanager/backend/device/storage_service.py`,
`src/umanager/util/device_change_watcher.py`, together with theorems about
the specified behaviour.
-/

deriving instance DecidableEq for Except

namespace UManager

/-- ASCII case-folded sort key, modelling the Python `casefold()` sort keys
(identifiers here are ASCII, where `casefold` agrees with lower-casing).
Keys are kept as character lists so that comparisons compute structurally. -/
def caseFoldKey (s : String) : List Char := s.data.map Char.toLower

/-- ASCII upper-casing, modelling Python `str.upper()` on identifier strings. -/
def pyUpper (s : String) : String := String.mk (s.data.map Char.toUpper)

/-- Python `s.startswith(marker)`. -/
def pyStartsWith (s marker : String) : Bool :=
  s.data.take marker.data.length == marker.data

/-- Lexicographic comparison of code-point sequences, as Python compares the
`casefold()` sort keys. -/
def lexLeChars : List Char → List Char → Bool
  | [], _ => true
  | _ :: _, [] => false
  | a :: as, b :: bs => if a = b then lexLeChars as bs else decide (a < b)

/-- A WMI `Win32_PnPEntity` record as consumed by the services: the attributes read
via `getattr` in `base_service.py` and `storage_service.py`. -/
structure PnPEntity where
  pnpDeviceID : String
  name : Option String := none
  manufacturer : Option String := none
  description : Option String := none
  hardwareID : Option (List String) := none
  deriving DecidableEq, Repr

/-- The id wrapper `UsbDeviceId(instance_id=...)` from the device protocol module. -/
structure UsbDeviceId where
  instanceId : String
  deriving DecidableEq, Repr

/-- Errors raised by the directory services; `notFound` embeds the
`FileNotFoundError` raised on missing device ids. -/
inductive DeviceError where
  | notFound (msg : String)
  deriving DecidableEq, Repr

/-- `UsbBaseDeviceService._scan_usb_pnp_entities`: keep the PnP entities whose
`PNPDeviceID` is truthy (non-empty) and starts with the literal `USB`
(a case-sensitive `str.startswith` check). -/
def scanUsbPnpEntities (world : List PnPEntity) : List PnPEntity :=
  world.filter (fun e => !(e.pnpDeviceID == "") && pyStartsWith e.pnpDeviceID ("USB"))

/-- Key comparison used by `res.sort(key=lambda d: d.instance_id.casefold())`. -/
def idKeyLe (a b : UsbDeviceId) : Bool :=
  lexLeChars (caseFoldKey a.instanceId) (caseFoldKey b.instanceId)

/-- The sort relation of the id listings, as a decidable proposition. -/
def idRel (a b : UsbDeviceId) : Prop := idKeyLe a b = true

instance : DecidableRel idRel := fun a b => inferInstanceAs (Decidable (idKeyLe a b = true))

/-- `UsbBaseDeviceService.list_base_device_ids`: scan the current PnP world and
return the ids sorted by case-folded identifier (`list.sort` is a stable sort,
so the stable `insertionSort` computes the same list). -/
def listBaseDeviceIds (world : List PnPEntity) : List UsbDeviceId :=
  ((scanUsbPnpEntities world).map (fun e => UsbDeviceId.mk e.pnpDeviceID)).insertionSort idRel

/-- Hexadecimal digit class of the regex `[0-9A-Fa-f]`. -/
def isHexDigit (c : Char) : Bool :=
  c.isDigit || (decide ('A' ≤ c) && decide (c ≤ 'F')) || (decide ('a' ≤ c) && decide (c ≤ 'f'))

/-- Match `[0-9A-Fa-f]{4}` at the head of the character list, returning the group. -/
def matchHex4At (cs : List Char) : Option String :=
  match cs with
  | a :: b :: c :: d :: _ =>
    if isHexDigit a && isHexDigit b && isHexDigit c && isHexDigit d then
      some (String.mk [a, b, c, d])
    else none
  | _ => none

/-- Leftmost `re.search` of `marker([0-9A-Fa-f]{4})`: at each position try the literal
marker followed by four hex digits, otherwise advance one character. -/
def searchMarkerHex4 (marker : List Char) : List Char → Option String
  | [] => none
  | c :: rest =>
    if (c :: rest).take marker.length = marker then
      match matchHex4At ((c :: rest).drop marker.length) with
      | some r => some r
      | none => searchMarkerHex4 marker rest
    else searchMarkerHex4 marker rest

/-- The separator `r"\\"` passed to `instance_id.split` in `_parse_usb_ids`: a raw
Python string denoting the two-character sequence backslash-backslash. -/
def escapedBackslashSep : String := "\\\\"

/-- Left-to-right scan of Python `str.split` for the fixed two-character
backslash-backslash separator, carrying the reversed current part. -/
def splitEscAux : List Char → List Char → List (List Char)
  | acc, [] => [acc.reverse]
  | acc, '\\' :: '\\' :: rest => acc.reverse :: splitEscAux [] rest
  | acc, c :: rest => splitEscAux (c :: acc) rest

/-- Python `instance_id.split(r"\\")`: split on the literal two-character
backslash-backslash sequence (never returns an empty list). -/
def pySplitEscBackslash (s : String) : List String :=
  (splitEscAux [] s.data).map String.mk

/-- The `_ParsedUsbIds` dataclass. -/
structure ParsedUsbIds where
  vendorId : Option String
  productId : Option String
  serialNumber : Option String
  deriving DecidableEq, Repr

/-- `UsbBaseDeviceService._parse_usb_ids`: regex-search the vendor/product hex codes
(upper-cased), then split the identifier on the literal `\\` sequence and take the
final part as serial number when there are at least three parts and it is non-empty. -/
def parseUsbIds (instanceId : String) : ParsedUsbIds :=
  let vendorId := (searchMarkerHex4 ("VID_").data instanceId.data).map pyUpper
  let productId := (searchMarkerHex4 ("PID_").data instanceId.data).map pyUpper
  let parts := pySplitEscBackslash instanceId
  let serialNumber :=
    if 3 ≤ parts.length ∧ ¬ parts.getLastD ("") = "" then some (parts.getLastD (""))
    else none
  ⟨vendorId, productId, serialNumber⟩

/-- The `UsbBaseDeviceInfo` dataclass from the device protocol module. -/
structure UsbBaseDeviceInfo where
  id : UsbDeviceId
  vendorId : Option String := none
  productId : Option String := none
  manufacturer : Option String := none
  product : Option String := none
  serialNumber : Option String := none
  description : Option String := none
  deriving DecidableEq, Repr

/-- Python `a or b` on optional strings: the empty string is falsy, so it also
falls through to `b` (used for `description or name`). -/
def pyOrStr (a b : Option String) : Option String :=
  match a with
  | some s => if s = "" then b else some s
  | none => b

/-- `UsbBaseDeviceService.get_base_device_info`: find the first scanned entity whose
`PNPDeviceID` equals the requested id, raise `FileNotFoundError` when absent,
otherwise assemble the info record from the parsed ids and the entity metadata. -/
def getBaseDeviceInfo (world : List PnPEntity) (deviceId : UsbDeviceId) :
    Except DeviceError UsbBaseDeviceInfo :=
  match (scanUsbPnpEntities world).find? (fun e => e.pnpDeviceID == deviceId.instanceId) with
  | none => .error (.notFound (("USB device not found: ") ++ deviceId.instanceId))
  | some entity =>
    let parsed := parseUsbIds deviceId.instanceId
    .ok
      { id := deviceId
        vendorId := parsed.vendorId
        productId := parsed.productId
        manufacturer := entity.manufacturer
        product := entity.name
        serialNumber := parsed.serialNumber
        description := pyOrStr entity.description entity.name }

/-- Values a WMI string-typed field can present to `_parse_optional_int`:
absent (`None`), an already-numeric value, or text. -/
inductive PyVal where
  | pyNone
  | pyInt (n : Int)
  | pyStr (s : String)
  deriving DecidableEq, Repr

/-- The whitespace class Python `str.strip()` removes (its ASCII members). -/
def pyIsSpace (c : Char) : Bool :=
  c = ' ' || c = '\t' || c = '\n' || c = '\x0d' || c = '\x0b' || c = '\x0c'

/-- Python `s.strip()`: drop leading and trailing whitespace. -/
def pyStrip (s : String) : String :=
  String.mk ((((s.data.dropWhile pyIsSpace).reverse).dropWhile pyIsSpace).reverse)

/-- Numeric value of an ASCII decimal digit character. -/
def digitVal (c : Char) : Nat := c.toNat - 48

/-- Continuation of Python `int()` digit parsing: digits may be separated by single
underscores; an underscore must be followed by a digit and may not end the literal. -/
def pyDigitsCore : Nat → List Char → Option Nat
  | acc, [] => some acc
  | _, ['_'] => none
  | acc, '_' :: c :: cs =>
    if c.isDigit then pyDigitsCore (acc * 10 + digitVal c) cs else none
  | acc, c :: cs =>
    if c.isDigit then pyDigitsCore (acc * 10 + digitVal c) cs else none

/-- Unsigned part of a Python `int()` literal: a non-empty digit sequence with
optional single underscores between digits. -/
def pyDigits : List Char → Option Nat
  | [] => none
  | c :: cs => if c.isDigit then pyDigitsCore (digitVal c) cs else none

/-- Python `int(s)` on an already-stripped string: an optional sign followed by the
digit grammar; any other shape raises (modelled as `none`). -/
def pythonIntOfString (s : String) : Option Int :=
  match s.data with
  | '+' :: rest => (pyDigits rest).map (fun n => (n : Int))
  | '-' :: rest => (pyDigits rest).map (fun n => -(n : Int))
  | cs => (pyDigits cs).map (fun n => (n : Int))

/-- `UsbStorageDeviceService._parse_optional_int`: `None` stays absent, `int` values
pass through, strings are stripped, the empty result is absent, and a failing
`int(...)` conversion is swallowed to absent. -/
def parseOptionalInt (value : PyVal) : Option Int :=
  match value with
  | .pyNone => none
  | .pyInt n => some n
  | .pyStr v =>
    let s := pyStrip v
    if s = "" then none else pythonIntOfString s

/-- A WMI `Win32_LogicalDisk` record with the attributes the service reads. -/
structure WmiLogicalDisk where
  deviceID : Option String := none
  fileSystem : Option String := none
  volumeName : Option String := none
  size : PyVal := .pyNone
  freeSpace : PyVal := .pyNone
  deriving DecidableEq, Repr

/-- The `UsbVolumeInfo` dataclass from the device protocol module (the `Path`
mount point is embedded as its string form). -/
structure UsbVolumeInfo where
  driveLetter : Option String := none
  mountPath : Option String := none
  fileSystem : Option String := none
  volumeLabel : Option String := none
  totalBytes : Option Int := none
  freeBytes : Option Int := none
  deriving DecidableEq, Repr

/-- A `Win32_DiskPartition` object, carrying the outcome of its
`associators("Win32_LogicalDiskToPartition")` call (which the service wraps in
`try`/`except`). -/
structure WmiDiskPartition where
  logicalDiskAssoc : Except Unit (List WmiLogicalDisk)
  deriving DecidableEq, Repr

/-- A `Win32_DiskDrive` object: its `PNPDeviceID` and the outcome of its
`associators("Win32_DiskDriveToDiskPartition")` call; `ok none` stands for a
falsy (`None`) association result, which `partitions or []` turns into no work. -/
structure WmiDiskDrive where
  pnpDeviceID : String
  partAssoc : Except Unit (Option (List WmiDiskPartition))
  deriving DecidableEq, Repr

/-- The logical-disk list `_get_volumes_for_partition` iterates: the association
result, or `[]` when the call raised. -/
def logicalDisksOf (p : WmiDiskPartition) : List WmiLogicalDisk :=
  match p.logicalDiskAssoc with
  | .ok l => l
  | .error _ => []

/-- `UsbStorageDeviceService._get_volumes_for_partition`: one `UsbVolumeInfo` per
associated logical disk; a truthy `DeviceID` also yields the mount path
`f"{drive}\\"`, and byte counts go through the tolerant parser. -/
def getVolumesForPartition (p : WmiDiskPartition) : List UsbVolumeInfo :=
  (logicalDisksOf p).map (fun ld =>
    { driveLetter := ld.deviceID
      mountPath :=
        match ld.deviceID with
        | some d => if d = "" then none else some (String.mk (d.data ++ ['\\']))
        | none => none
      fileSystem := ld.fileSystem
      volumeLabel := ld.volumeName
      totalBytes := parseOptionalInt ld.size
      freeBytes := parseOptionalInt ld.freeSpace })

/-- The partition list `_get_volumes_for_disk` iterates: `[]` when the association
call raised, and `partitions or []` when it returned a falsy value. -/
def partitionsOf (disk : WmiDiskDrive) : List WmiDiskPartition :=
  match disk.partAssoc with
  | .error _ => []
  | .ok none => []
  | .ok (some l) => l

/-- Key comparison of `volumes.sort(key=lambda v: (v.drive_letter or "").casefold())`. -/
def volKeyLe (a b : UsbVolumeInfo) : Bool :=
  lexLeChars (caseFoldKey (a.driveLetter.getD (""))) (caseFoldKey (b.driveLetter.getD ("")))

/-- The volume sort relation, as a decidable proposition. -/
def volRel (a b : UsbVolumeInfo) : Prop := volKeyLe a b = true

instance : DecidableRel volRel := fun a b => inferInstanceAs (Decidable (volKeyLe a b = true))

/-- `UsbStorageDeviceService._get_volumes_for_disk`: collect the volumes of every
associated partition, then stably sort them by case-folded drive letter with a
missing letter keyed as the empty string (`list.sort` is stable, matching the
stable `insertionSort`). -/
def getVolumesForDisk (disk : WmiDiskDrive) : List UsbVolumeInfo :=
  (((partitionsOf disk).map getVolumesForPartition).flatten).insertionSort volRel

/-- The `USBSTOR\` marker (`"USBSTOR\\"` in the Python source, i.e. `USBSTOR`
followed by one backslash) against which storage classification compares. -/
def usbstorMarker : String := "USBSTOR\\"

/-- `UsbStorageDeviceService._is_storage_pnp_entity`: upper-case the identifier and
each hardware-id alias and test the `USBSTOR\` marker on them. -/
def isStoragePnpEntity (e : PnPEntity) : Bool :=
  pyStartsWith (pyUpper e.pnpDeviceID) usbstorMarker ||
    (e.hardwareID.getD []).any (fun hid => pyStartsWith (pyUpper hid) usbstorMarker)

/-- `UsbStorageDeviceService._iter_usb_disk_drives`: keep cached disk drives whose
`PNPDeviceID` is non-empty and, upper-cased, starts with the `USBSTOR\` marker. -/
def iterUsbDiskDrives (disks : List WmiDiskDrive) : List WmiDiskDrive :=
  disks.filter (fun d => !(d.pnpDeviceID == "") && pyStartsWith (pyUpper d.pnpDeviceID) usbstorMarker)

/-- `UsbStorageDeviceService._scan_disk_drives_uncached`: the `Win32_DiskDrive`
query result, or an empty list when the query raised. -/
def scanDiskDrivesUncached (query : Except Unit (List WmiDiskDrive)) : List WmiDiskDrive :=
  match query with
  | .ok disks => disks
  | .error _ => []

/-- Python `dict` assignment `m[k] = v` on an insertion-ordered association list:
overwrite in place when the key exists, append otherwise. -/
def dictInsert (m : List (String × List UsbVolumeInfo)) (k : String)
    (v : List UsbVolumeInfo) : List (String × List UsbVolumeInfo) :=
  if m.any (fun p => p.1 == k) then
    m.map (fun p => if p.1 == k then (k, v) else p)
  else m ++ [(k, v)]

/-- Python `m.get(k)` on the association-list dictionary model. -/
def dictGet (m : List (String × List UsbVolumeInfo)) (k : String) :
    Option (List UsbVolumeInfo) :=
  (m.find? (fun p => p.1 == k)).map Prod.snd

/-- The `_StorageScanResult` dataclass. -/
structure StorageScanResult where
  deviceIds : List UsbDeviceId
  volumesByInstanceId : List (String × List UsbVolumeInfo)
  deriving DecidableEq, Repr

/-- `UsbStorageDeviceService._scan_storage_devices_uncached`: classify the base
entities, correlate USB disk drives to their volumes, and give every
storage-classified instance id an entry (defaulting to the empty volume list). -/
def scanStorageDevicesUncached (entities : List PnPEntity)
    (cachedDisks : List WmiDiskDrive) : StorageScanResult :=
  let storageInstanceIds :=
    ((entities.filter (fun e => !(e.pnpDeviceID == "") && isStoragePnpEntity e)).map
      (fun e => e.pnpDeviceID))
  let diskVolumeMap := (iterUsbDiskDrives cachedDisks).foldl
    (fun m disk =>
      if disk.pnpDeviceID == "" then m
      else dictInsert m disk.pnpDeviceID (getVolumesForDisk disk)) []
  { deviceIds := storageInstanceIds.map UsbDeviceId.mk
    volumesByInstanceId := storageInstanceIds.foldl
      (fun m iid => dictInsert m iid ((dictGet diskVolumeMap iid).getD [])) [] }

/-- The mutable cache fields of `UsbStorageDeviceService`. -/
structure StorageState where
  cachedDeviceIds : List UsbDeviceId
  cachedVolumesByInstanceId : List (String × List UsbVolumeInfo)
  cachedDiskDrives : List WmiDiskDrive
  deriving DecidableEq, Repr

/-- One refresh cycle's OS inputs. `baseRefreshOutcome` is modelled from the spec:
`UsbBaseDeviceService.refresh` (called first by the storage refresh, and absent
from the base-service source, which only its protocol and this caller mention)
performs a fresh USB PnP enumeration and fails if that OS query fails.
`pnpWorld` is the PnP world that enumeration sees; the entity list the storage
scan consumes via `get_usb_pnp_entities` (also absent from the base-service
source) is its USB-filtered scan. -/
structure StorageRefreshWorld where
  baseRefreshOutcome : Except Unit Unit
  pnpWorld : List PnPEntity
  diskDriveQuery : Except Unit (List WmiDiskDrive)

/-- `UsbStorageDeviceService.refresh`: propagate a base-refresh failure, otherwise
rebuild the disk-drive cache (best-effort) and install the storage scan result. -/
def storageRefresh (w : StorageRefreshWorld) : Except Unit StorageState :=
  match w.baseRefreshOutcome with
  | .error e => .error e
  | .ok _ =>
    let disks := scanDiskDrivesUncached w.diskDriveQuery
    let scan := scanStorageDevicesUncached (scanUsbPnpEntities w.pnpWorld) disks
    .ok
      { cachedDeviceIds := scan.deviceIds
        cachedVolumesByInstanceId := scan.volumesByInstanceId
        cachedDiskDrives := disks }

/-- `UsbStorageDeviceService.list_storage_device_ids`: cached ids sorted by
case-folded identifier. -/
def listStorageDeviceIds (st : StorageState) : List UsbDeviceId :=
  st.cachedDeviceIds.insertionSort idRel

/-- The `UsbStorageDeviceInfo` dataclass. -/
structure UsbStorageDeviceInfo where
  base : UsbBaseDeviceInfo
  volumes : List UsbVolumeInfo := []
  deriving DecidableEq, Repr

/-- `UsbStorageDeviceService.get_storage_device_info`: raise `FileNotFoundError`
when no cached storage id matches, otherwise delegate to the base directory
(whose own lookup runs against the current PnP world) and join with the cached
volume list, defaulting to the empty list. -/
def getStorageDeviceInfo (st : StorageState) (world : List PnPEntity)
    (deviceId : UsbDeviceId) : Except DeviceError UsbStorageDeviceInfo :=
  if st.cachedDeviceIds.any (fun d => d.instanceId == deviceId.instanceId) then
    match getBaseDeviceInfo world deviceId with
    | .error e => .error e
    | .ok base =>
      .ok { base := base
            volumes := (dictGet st.cachedVolumesByInstanceId deviceId.instanceId).getD [] }
  else .error (.notFound (("USB storage device not found: ") ++ deviceId.instanceId))

/-- Observable side effects of `UsbDeviceChangeWatcher.start`/`stop` on its worker
thread: starting the QThread, requesting the worker stop, quitting the thread,
and the bounded `thread.wait(ms)` join. -/
inductive WatchAction where
  | threadStart
  | workerStop
  | threadQuit
  | threadWait (ms : Nat)
  deriving DecidableEq, Repr

/-- The `_started` flag of `UsbDeviceChangeWatcher`. -/
structure WatcherState where
  started : Bool
  deriving DecidableEq, Repr

/-- `UsbDeviceChangeWatcher.__init__` leaves the watcher not started. -/
def watcherInit : WatcherState := { started := false }

/-- `UsbDeviceChangeWatcher.start`: return immediately when already started,
otherwise set the flag and start the thread. -/
def watcherStart (w : WatcherState) : WatcherState × List WatchAction :=
  if w.started then (w, [])
  else ({ started := true }, [WatchAction.threadStart])

/-- `UsbDeviceChangeWatcher.stop`: return immediately when not started, otherwise
signal the worker, quit the thread, join it with a 2500 ms bound and clear the
flag. -/
def watcherStop (w : WatcherState) : WatcherState × List WatchAction :=
  if !w.started then (w, [])
  else ({ started := false },
    [WatchAction.workerStop, WatchAction.threadQuit, WatchAction.threadWait 2500])

/-- The `DeviceEjectResult` dataclass from the device protocol module. -/
structure DeviceEjectResult where
  success : Bool
  attemptedInstanceId : String
  configRet : Int
  deriving DecidableEq, Repr

/-- An element of the aggregated `devices` list: either the base variant or the
storage-enriched variant. -/
inductive DeviceEntry where
  | baseEntry (info : UsbBaseDeviceInfo)
  | storageEntry (info : UsbStorageDeviceInfo)
  deriving DecidableEq, Repr

/-- Modelled from the spec: the `MainAreaState` snapshot published by the
main-area state manager (`umanager/ui/states`, absent from the source tree and
known only through its tests), holding the scanning flag, the last operation
and its errors, the aggregated device list, the storage id set and the device
count. -/
structure MainAreaState where
  isScanning : Bool := false
  lastOperation : Option String := none
  lastOperationError : Option String := none
  refreshError : Option String := none
  devices : List DeviceEntry := []
  storages : List UsbDeviceId := []
  deviceCount : Nat := 0
  deriving DecidableEq, Repr

/-- Modelled from the spec: the collaborator outcomes one refresh cycle of the
main-area state manager observes — the two directory `refresh()` outcomes, the
base id listing, the per-id base info, the storage-classified ids and the
per-id storage info retrieval. -/
structure RefreshEnv where
  baseRefreshOutcome : Except String Unit
  storageRefreshOutcome : Except String Unit
  baseIds : List UsbDeviceId
  baseInfoOf : UsbDeviceId → UsbBaseDeviceInfo
  storageIds : List UsbDeviceId
  storageInfoOf : UsbDeviceId → Except String UsbStorageDeviceInfo

/-- Whether a base id is storage-classified, by identifier comparison against the
storage directory's listing. -/
def isClassified (env : RefreshEnv) (deviceId : UsbDeviceId) : Bool :=
  env.storageIds.any (fun s => s.instanceId == deviceId.instanceId)

/-- Modelled from the spec: the refresh execution of the main-area state manager
(absent from the source tree). Either directory refresh error is escalated and
the previous device list and storages are retained; otherwise each base id is
enriched to its storage variant exactly when it is storage-classified and its
storage info call succeeds, a failed per-id retrieval degrades that id to its
base variant without making the refresh fail, and the snapshot leaves scanning
with `last_operation = "refresh"` and no error. -/
def runMainAreaRefresh (prev : MainAreaState) (env : RefreshEnv) : MainAreaState :=
  match env.baseRefreshOutcome with
  | .error e =>
    { prev with
        isScanning := false
        lastOperation := some ("refresh")
        lastOperationError := some e
        refreshError := some e }
  | .ok _ =>
    match env.storageRefreshOutcome with
    | .error e =>
      { prev with
          isScanning := false
          lastOperation := some ("refresh")
          lastOperationError := some e
          refreshError := some e }
    | .ok _ =>
      let devices := env.baseIds.map (fun deviceId =>
        if isClassified env deviceId then
          match env.storageInfoOf deviceId with
          | .ok info => DeviceEntry.storageEntry info
          | .error _ => DeviceEntry.baseEntry (env.baseInfoOf deviceId)
        else DeviceEntry.baseEntry (env.baseInfoOf deviceId))
      let storages := env.baseIds.filter (fun deviceId =>
        isClassified env deviceId &&
          match env.storageInfoOf deviceId with
          | .ok _ => true
          | .error _ => false)
      { isScanning := false
        lastOperation := some ("refresh")
        lastOperationError := none
        refreshError := none
        devices := devices
        storages := storages
        deviceCount := devices.length }

/-! ### Concrete scenario inputs used by the claim theorems -/

/-- A four-segment identifier (segments separated by the two-character
backslash-backslash sequence the source splits on). -/
def c2SampleId : String := "USB\\\\VID_1234&PID_5678\\\\SER123\\\\0"

/-- Refinement comparison definition, following the spec words for claim C3:
return the ids of the cached snapshot installed by the last `refresh()`,
sorted case-insensitively ascending, consulting no fresh OS enumeration. -/
def specCachedListBaseDeviceIds (cachedIds : List UsbDeviceId) : List UsbDeviceId :=
  cachedIds.insertionSort idRel

/-- A logical disk whose OS `Size` field is the numeric text `-5`. -/
def c4NegLogicalDisk : WmiLogicalDisk := { deviceID := some ("E:"), size := .pyStr ("-5") }

/-- A partition exposing `c4NegLogicalDisk`. -/
def c4NegPartition : WmiDiskPartition := { logicalDiskAssoc := .ok [c4NegLogicalDisk] }

/-- A partition with one well-formed logical disk, for the C4 witness. -/
def c4Partition : WmiDiskPartition :=
  { logicalDiskAssoc := .ok [{ size := .pyStr ("100") }] }

/-- The single volume `c4Partition` produces. -/
def c4SampleVolume : UsbVolumeInfo := { totalBytes := some 100 }

/-- A storage cache that still lists id `USBSTOR\DISK\B`. -/
def c5CachedState : StorageState :=
  { cachedDeviceIds := [{ instanceId := "USBSTOR\\DISK\\B" }]
    cachedVolumesByInstanceId := [(("USBSTOR\\DISK\\B"), [])]
    cachedDiskDrives := [] }

/-- A PnP world still containing the entity for `USBSTOR\DISK\B`. -/
def c5World : List PnPEntity := [{ pnpDeviceID := "USBSTOR\\DISK\\B" }]

/-- A refresh world whose disk-drive enumeration raises. -/
def c6World : StorageRefreshWorld :=
  { baseRefreshOutcome := .ok ()
    pnpWorld := []
    diskDriveQuery := .error () }

/-- A disk drive whose partition association raises. -/
def c6BadDisk : WmiDiskDrive := { pnpDeviceID := "USBSTOR\\X", partAssoc := .error () }

/-- A disk whose partition holds a logical disk with an empty-string `DeviceID`
(a present but empty drive letter) before one with no `DeviceID` at all. -/
def c7Disk : WmiDiskDrive :=
  { pnpDeviceID := "USBSTOR\\DISK\\X"
    partAssoc := .ok (some [{ logicalDiskAssoc := .ok [{ deviceID := some ("") }, { deviceID := none }] }]) }

/-- A disk with one absent-letter volume and one volume lettered `E:`. -/
def c7SortedDisk : WmiDiskDrive :=
  { pnpDeviceID := "USBSTOR\\DISK\\Y"
    partAssoc := .ok (some [{ logicalDiskAssoc := .ok [{ deviceID := some ("E:") }, { deviceID := none }] }]) }

/-- The ordering requirement claim C7 states: every volume with an absent drive
letter comes before every volume that has one. -/
def absentLettersFirst (vs : List UsbVolumeInfo) : Prop :=
  ∀ i j : Fin vs.length,
    (vs.get i).driveLetter = none → ¬ (vs.get j).driveLetter = none → (i : Nat) < (j : Nat)

instance (vs : List UsbVolumeInfo) : Decidable (absentLettersFirst vs) :=
  inferInstanceAs (Decidable (∀ _ _, _ → _ → _))

/-- A refresh world with one storage-classified entity and no disks. -/
def c9World : StorageRefreshWorld :=
  { baseRefreshOutcome := .ok ()
    pnpWorld := [{ pnpDeviceID := "USBSTOR\\D1" }]
    diskDriveQuery := .ok [] }

/-- The state `storageRefresh c9World` installs. -/
def c9State : StorageState :=
  { cachedDeviceIds := [{ instanceId := "USBSTOR\\D1" }]
    cachedVolumesByInstanceId := [(("USBSTOR\\D1"), [])]
    cachedDiskDrives := [] }

/-- A PnP entity whose identifier starts with lower-case `usb`. -/
def c10Entity : PnPEntity := { pnpDeviceID := "usbstor\\X" }

/-- The refresh environment of the storage-info-failure test: base ids `A` and
`B`, `B` storage-classified, and every storage-info retrieval raising. -/
def c1Env : RefreshEnv :=
  { baseRefreshOutcome := .ok ()
    storageRefreshOutcome := .ok ()
    baseIds := [{ instanceId := "A" }, { instanceId := "B" }]
    baseInfoOf := fun deviceId => { id := deviceId }
    storageIds := [{ instanceId := "B" }]
    storageInfoOf := fun _ => .error ("storage info failed") }

/-! ### Helper lemmas -/

theorem lexLeChars_trans : ∀ as bs cs : List Char,
    lexLeChars as bs = true → lexLeChars bs cs = true → lexLeChars as cs = true
  | [], _, _, _, _ => by simp [lexLeChars]
  | _ :: _, [], _, h1, _ => by simp [lexLeChars] at h1
  | _ :: _, _ :: _, [], _, h2 => by simp [lexLeChars] at h2
  | a :: as, b :: bs, c :: cs, h1, h2 => by
    simp only [lexLeChars] at h1 h2 ⊢
    by_cases hab : a = b
    · subst hab
      rw [if_pos rfl] at h1
      by_cases hac : a = c
      · subst hac
        rw [if_pos rfl] at h2 ⊢
        exact lexLeChars_trans as bs cs h1 h2
      · rw [if_neg hac] at h2 ⊢
        exact h2
    · rw [if_neg hab] at h1
      have hlt : a < b := of_decide_eq_true h1
      by_cases hbc : b = c
      · subst hbc
        rw [if_neg hab]
        exact decide_eq_true hlt
      · rw [if_neg hbc] at h2
        have hlt2 : b < c := of_decide_eq_true h2
        have hltac : a < c := lt_trans hlt hlt2
        rw [if_neg (ne_of_lt hltac)]
        exact decide_eq_true hltac

theorem lexLeChars_total : ∀ as bs : List Char,
    (lexLeChars as bs || lexLeChars bs as) = true
  | [], _ => by simp [lexLeChars]
  | _ :: _, [] => by simp [lexLeChars]
  | a :: as, b :: bs => by
    by_cases h : a = b
    · subst h
      simpa [lexLeChars] using lexLeChars_total as bs
    · have h2 : ¬ b = a := fun hh => h hh.symm
      simp only [lexLeChars, if_neg h, if_neg h2, Bool.or_eq_true, decide_eq_true_eq]
      rcases lt_or_gt_of_ne h with hl | hl
      · exact Or.inl hl
      · exact Or.inr hl

instance : IsTrans UsbDeviceId idRel :=
  ⟨fun _ _ _ h1 h2 => lexLeChars_trans _ _ _ h1 h2⟩

instance : IsTotal UsbDeviceId idRel :=
  ⟨fun a b => by
    have h := lexLeChars_total (caseFoldKey a.instanceId) (caseFoldKey b.instanceId)
    rcases Bool.or_eq_true_iff.mp h with h1 | h1
    · exact Or.inl h1
    · exact Or.inr h1⟩

instance : IsTrans UsbVolumeInfo volRel :=
  ⟨fun _ _ _ h1 h2 => lexLeChars_trans _ _ _ h1 h2⟩

instance : IsTotal UsbVolumeInfo volRel :=
  ⟨fun a b => by
    have h := lexLeChars_total (caseFoldKey (a.driveLetter.getD (""))) (caseFoldKey (b.driveLetter.getD ("")))
    rcases Bool.or_eq_true_iff.mp h with h1 | h1
    · exact Or.inl h1
    · exact Or.inr h1⟩

theorem data_ne_nil_of_ne_empty (s : String) (h : ¬ s = "") : ¬ s.data = [] := by
  intro hd
  apply h
  cases s with
  | mk data =>
    cases hd
    rfl

theorem any_congr {α : Type} (f g : α → Bool) (h : ∀ x, f x = g x) :
    ∀ l : List α, l.any f = l.any g := by
  intro l
  induction l with
  | nil => rfl
  | cons a l ih => simp [List.any_cons, h a, ih]

theorem any_key_dictInsert (m : List (String × List UsbVolumeInfo)) (k k2 : String)
    (v : List UsbVolumeInfo) :
    (dictInsert m k v).any (fun p => p.1 == k2) =
      ((k2 == k) || m.any (fun p => p.1 == k2)) := by
  unfold dictInsert
  by_cases hm : m.any (fun p => p.1 == k) = true
  · rw [if_pos hm]
    by_cases hk : k2 = k
    · subst hk
      simp only [beq_self_eq_true, Bool.true_or]
      rw [List.any_eq_true] at hm ⊢
      obtain ⟨p, hp, hpk⟩ := hm
      refine ⟨if p.1 == k2 then (k2, v) else p, List.mem_map.mpr ⟨p, hp, rfl⟩, ?_⟩
      rw [hpk]
      simp
    · have hkb : (k2 == k) = false := beq_eq_false_iff_ne.mpr hk
      rw [hkb, Bool.false_or, List.any_map]
      refine any_congr _ _ (fun p => ?_) m
      simp only [Function.comp]
      by_cases hp : (p.1 == k) = true
      · have hp1 : p.1 = k := beq_iff_eq.mp hp
        rw [if_pos hp, hp1]
      · rw [if_neg (by simpa using hp)]
  · rw [if_neg hm]
    rw [List.any_append]
    simp only [List.any_cons, List.any_nil, Bool.or_false]
    rw [Bool.or_comm, Bool.beq_comm]

theorem dictGet_isSome (m : List (String × List UsbVolumeInfo)) (k : String) :
    (dictGet m k).isSome = m.any (fun p => p.1 == k) := by
  unfold dictGet
  induction m with
  | nil => rfl
  | cons p m ih =>
    by_cases h : (p.1 == k) = true
    · simp [List.find?_cons, List.any_cons, h]
    · have hf : (p.1 == k) = false := by simpa using h
      simp [List.find?_cons, List.any_cons, hf, ih]

theorem foldl_dictInsert_any (f : String → List UsbVolumeInfo) (k2 : String) :
    ∀ (ids : List String) (m0 : List (String × List UsbVolumeInfo)),
      ((ids.foldl (fun m iid => dictInsert m iid (f iid)) m0).any (fun p => p.1 == k2)) =
        (m0.any (fun p => p.1 == k2) || ids.any (fun iid => iid == k2)) := by
  intro ids
  induction ids with
  | nil => intro m0; simp
  | cons i ids ih =>
    intro m0
    simp only [List.foldl_cons, List.any_cons]
    rw [ih, any_key_dictInsert]
    rw [Bool.beq_comm]
    cases (i == k2) <;> cases m0.any (fun p => p.1 == k2) <;> simp

/-! ### Claim theorems -/

/-- Claim C1: in a refresh cycle where both directory refreshes succeed, a base id
that is storage-classified but whose storage-info retrieval raises appears in the
published devices list as its base-only variant (never dropped), is absent from
the storages set, and the refresh records no overall error. -/
theorem C1_storage_info_failure_degrades (prev : MainAreaState) (env : RefreshEnv)
    (deviceId : UsbDeviceId)
    (hb : env.baseRefreshOutcome = .ok ())
    (hs : env.storageRefreshOutcome = .ok ())
    (hmem : deviceId ∈ env.baseIds)
    (hcls : isClassified env deviceId = true)
    (e : String) (hfail : env.storageInfoOf deviceId = .error e) :
    DeviceEntry.baseEntry (env.baseInfoOf deviceId) ∈ (runMainAreaRefresh prev env).devices ∧
      deviceId ∉ (runMainAreaRefresh prev env).storages ∧
      (runMainAreaRefresh prev env).lastOperationError = none ∧
      (runMainAreaRefresh prev env).refreshError = none := by
  unfold runMainAreaRefresh
  rw [hb, hs]
  refine ⟨?_, ?_, rfl, rfl⟩
  · refine List.mem_map.mpr ⟨deviceId, hmem, ?_⟩
    rw [if_pos hcls, hfail]
  · intro hmem2
    have hpred := (List.mem_filter.mp hmem2).2
    rw [hcls, hfail] at hpred
    simp at hpred

/-- Claim C1 witness: the scenario of the storage-info-failure test — base ids `A`
and `B`, `B` storage-classified with a raising storage-info call. -/
theorem C1_witness :
    DeviceEntry.baseEntry { id := { instanceId := "B" } } ∈
        (runMainAreaRefresh {} c1Env).devices ∧
      ({ instanceId := "B" } : UsbDeviceId) ∉ (runMainAreaRefresh {} c1Env).storages ∧
      (runMainAreaRefresh {} c1Env).lastOperationError = none ∧
      (runMainAreaRefresh {} c1Env).refreshError = none :=
  C1_storage_info_failure_degrades {} c1Env { instanceId := "B" } rfl rfl (by decide)
    (by decide) ("storage info failed") rfl

/-- Claim C2 counterexample: on a four-segment identifier with a non-empty final
segment, the parsed serial number is the final segment, not the third path
segment the claim names. -/
theorem C2_counterexample :
    3 ≤ (pySplitEscBackslash c2SampleId).length ∧
      ¬ (pySplitEscBackslash c2SampleId).getLastD ("") = "" ∧
      (pySplitEscBackslash c2SampleId).getD 2 ("") = "SER123" ∧
      (parseUsbIds c2SampleId).serialNumber = some ("0") ∧
      ¬ (parseUsbIds c2SampleId).serialNumber =
          some ((pySplitEscBackslash c2SampleId).getD 2 ("")) := by
  decide

/-- Claim C2 (amended): the serial number is the identifier's final path segment
(the parts produced by splitting on the literal two-character backslash-backslash
sequence) when there are at least three segments and the final one is non-empty,
and is absent when there are fewer than three segments. -/
theorem C2_serial_from_final_segment (s : String) :
    (3 ≤ (pySplitEscBackslash s).length →
      ¬ (pySplitEscBackslash s).getLastD ("") = "" →
      (parseUsbIds s).serialNumber = some ((pySplitEscBackslash s).getLastD (""))) ∧
    ((pySplitEscBackslash s).length < 3 → (parseUsbIds s).serialNumber = none) := by
  constructor
  · intro h1 h2
    simp only [parseUsbIds]
    rw [if_pos ⟨h1, h2⟩]
  · intro h
    simp only [parseUsbIds]
    rw [if_neg]
    intro hcon
    exact absurd hcon.1 (by omega)

/-- Claim C2 witness: a three-segment identifier yields its final segment as the
serial number; a one-segment identifier yields none. -/
theorem C2_witness :
    (parseUsbIds ("USB\\\\VID_1234&PID_5678\\\\SER123")).serialNumber = some ("SER123") ∧
      (parseUsbIds ("USB")).serialNumber = none :=
  ⟨(C2_serial_from_final_segment ("USB\\\\VID_1234&PID_5678\\\\SER123")).1 (by decide) (by decide),
    (C2_serial_from_final_segment ("USB")).2 (by decide)⟩

/-- Claim C3 counterexample: the directory holds no cached snapshot — a call made
after the PnP world changed returns the ids of the new world, not the ids the
last refresh-time enumeration would have cached as the spec-following
`specCachedListBaseDeviceIds` predicts. -/
theorem C3_counterexample :
    ¬ listBaseDeviceIds [{ pnpDeviceID := "USB\\B" }] =
        specCachedListBaseDeviceIds (listBaseDeviceIds [{ pnpDeviceID := "USB\\A" }]) := by
  decide

/-- Claim C3 (amended): `list_base_device_ids` enumerates the PnP world at call
time and returns exactly one id per USB-prefixed entity of that world, sorted by
case-folded identifier in ascending order. -/
theorem C3_fresh_enumeration_sorted (world : List PnPEntity) :
    (listBaseDeviceIds world).Perm
        ((scanUsbPnpEntities world).map (fun e => UsbDeviceId.mk e.pnpDeviceID)) ∧
      (listBaseDeviceIds world).Pairwise idRel :=
  ⟨List.perm_insertionSort idRel _, List.sorted_insertionSort idRel _⟩

/-- Claim C4 counterexample: the OS field text `-5` is parsed and stored, so a
constructed volume carries a present, negative byte count, contradicting the
claim that every present value is non-negative. -/
theorem C4_counterexample :
    (getVolumesForPartition c4NegPartition).map (fun v => v.totalBytes) = [some (-5)] ∧
      (-5 : Int) < 0 := by
  decide

/-- Claim C4 (amended): a missing value, empty string or non-numeric text yields an
absent byte count (not zero and not an exception), and every byte count of a
constructed volume is exactly the tolerant parse of its logical disk's field —
an integer that may be negative, since a leading sign is accepted. -/
theorem C4_tolerant_byte_parsing :
    parseOptionalInt PyVal.pyNone = none ∧
      (∀ s : String, pyStrip s = "" → parseOptionalInt (.pyStr s) = none) ∧
      (∀ s : String, pythonIntOfString (pyStrip s) = none →
        parseOptionalInt (.pyStr s) = none) ∧
      (∀ p : WmiDiskPartition, ∀ v ∈ getVolumesForPartition p,
        ∃ ld, ld ∈ logicalDisksOf p ∧
          v.totalBytes = parseOptionalInt ld.size ∧
          v.freeBytes = parseOptionalInt ld.freeSpace) := by
  refine ⟨rfl, ?_, ?_, ?_⟩
  · intro s h
    show (if pyStrip s = "" then none else pythonIntOfString (pyStrip s)) = none
    rw [if_pos h]
  · intro s h
    show (if pyStrip s = "" then none else pythonIntOfString (pyStrip s)) = none
    by_cases he : pyStrip s = ""
    · rw [if_pos he]
    · rw [if_neg he]
      exact h
  · intro p v hv
    unfold getVolumesForPartition at hv
    obtain ⟨ld, hld, hveq⟩ := List.mem_map.mp hv
    exact ⟨ld, hld, by rw [← hveq], by rw [← hveq]⟩

/-- Claim C4 witness: the empty string and the non-numeric text `12fx` parse to
absent, and the volume built from a `Size` of `100` carries exactly the parsed
byte counts. -/
theorem C4_witness :
    parseOptionalInt (.pyStr ("")) = none ∧
      parseOptionalInt (.pyStr ("12fx")) = none ∧
      (∃ ld, ld ∈ logicalDisksOf c4Partition ∧
        c4SampleVolume.totalBytes = parseOptionalInt ld.size ∧
        c4SampleVolume.freeBytes = parseOptionalInt ld.freeSpace) :=
  ⟨C4_tolerant_byte_parsing.2.1 ("") (by decide),
    C4_tolerant_byte_parsing.2.2.1 ("12fx") (by decide),
    C4_tolerant_byte_parsing.2.2.2 c4Partition c4SampleVolume (by decide)⟩

/-- Claim C5 counterexample: an id still present in the storage cache whose entity
has vanished from the PnP world makes `get_storage_device_info` fail with the
base directory's NotFound — so NotFound is not equivalent to absence from the
cached storage-classified ids. -/
theorem C5_counterexample :
    ({ instanceId := "USBSTOR\\DISK\\B" } : UsbDeviceId) ∈ c5CachedState.cachedDeviceIds ∧
      getStorageDeviceInfo c5CachedState [] { instanceId := "USBSTOR\\DISK\\B" } =
        .error (.notFound ("USB device not found: USBSTOR\\DISK\\B")) := by
  decide

/-- Claim C5 (amended): `get_storage_device_info` fails with its own NotFound when
the id is absent from the cached storage-classified ids; when the id is cached it
delegates to the base directory, returning the base info joined with the cached
volume list (defaulting to empty) on success, and propagating the base lookup's
error — including its NotFound — otherwise. -/
theorem C5_lookup (st : StorageState) (world : List PnPEntity) (deviceId : UsbDeviceId) :
    (st.cachedDeviceIds.any (fun d => d.instanceId == deviceId.instanceId) = false →
      getStorageDeviceInfo st world deviceId =
        .error (.notFound (("USB storage device not found: ") ++ deviceId.instanceId))) ∧
    (st.cachedDeviceIds.any (fun d => d.instanceId == deviceId.instanceId) = true →
      (∀ b, getBaseDeviceInfo world deviceId = .ok b →
        getStorageDeviceInfo st world deviceId =
          .ok { base := b
                volumes := (dictGet st.cachedVolumesByInstanceId deviceId.instanceId).getD [] }) ∧
      (∀ e, getBaseDeviceInfo world deviceId = .error e →
        getStorageDeviceInfo st world deviceId = .error e)) := by
  constructor
  · intro h
    unfold getStorageDeviceInfo
    rw [if_neg (by simp [h])]
  · intro h
    constructor
    · intro b hb
      unfold getStorageDeviceInfo
      rw [if_pos h, hb]
    · intro e he
      unfold getStorageDeviceInfo
      rw [if_pos h, he]

/-- Claim C5 witness: an uncached id fails with the storage NotFound, and the
cached id whose entity is still in the PnP world returns its base info joined
with the cached (empty) volume list. -/
theorem C5_witness :
    getStorageDeviceInfo c5CachedState c5World { instanceId := "X" } =
        .error (.notFound ("USB storage device not found: X")) ∧
      getStorageDeviceInfo c5CachedState c5World { instanceId := "USBSTOR\\DISK\\B" } =
        .ok { base := { id := { instanceId := "USBSTOR\\DISK\\B" } }, volumes := [] } :=
  ⟨(C5_lookup c5CachedState c5World { instanceId := "X" }).1 (by decide),
    ((C5_lookup c5CachedState c5World { instanceId := "USBSTOR\\DISK\\B" }).2 (by decide)).1
      { id := { instanceId := "USBSTOR\\DISK\\B" } } (by decide)⟩

/-- Claim C6: with the base refresh succeeding, a storage refresh cannot fail —
a raising disk-drive enumeration yields an empty cached disk list, and a raising
or falsy or empty association at either correlation hop yields zero volumes for
that branch, never an error. -/
theorem C6_best_effort (w : StorageRefreshWorld) (hb : w.baseRefreshOutcome = .ok ()) :
    (∃ st, storageRefresh w = .ok st) ∧
      (w.diskDriveQuery = .error () →
        ∃ st, storageRefresh w = .ok st ∧ st.cachedDiskDrives = []) ∧
      (∀ d : WmiDiskDrive, d.partAssoc = .error () → getVolumesForDisk d = []) ∧
      (∀ d : WmiDiskDrive, d.partAssoc = .ok none → getVolumesForDisk d = []) ∧
      (∀ d : WmiDiskDrive, d.partAssoc = .ok (some []) → getVolumesForDisk d = []) ∧
      (∀ p : WmiDiskPartition, p.logicalDiskAssoc = .error () →
        getVolumesForPartition p = []) ∧
      (∀ p : WmiDiskPartition, p.logicalDiskAssoc = .ok [] →
        getVolumesForPartition p = []) := by
  refine ⟨?_, ?_, ?_, ?_, ?_, ?_, ?_⟩
  · unfold storageRefresh
    rw [hb]
    exact ⟨_, rfl⟩
  · intro hq
    unfold storageRefresh
    rw [hb]
    refine ⟨_, rfl, ?_⟩
    simp [scanDiskDrivesUncached, hq]
  · intro d hd
    unfold getVolumesForDisk partitionsOf
    rw [hd]
    rfl
  · intro d hd
    unfold getVolumesForDisk partitionsOf
    rw [hd]
    rfl
  · intro d hd
    unfold getVolumesForDisk partitionsOf
    rw [hd]
    rfl
  · intro p hp
    unfold getVolumesForPartition logicalDisksOf
    rw [hp]
    rfl
  · intro p hp
    unfold getVolumesForPartition logicalDisksOf
    rw [hp]
    rfl

/-- Claim C6 witness: a world whose disk-drive query raises still refreshes
successfully with an empty disk cache, and a disk whose partition association
raises contributes no volumes. -/
theorem C6_witness :
    (∃ st, storageRefresh c6World = .ok st ∧ st.cachedDiskDrives = []) ∧
      getVolumesForDisk c6BadDisk = [] :=
  ⟨(C6_best_effort c6World rfl).2.1 rfl,
    (C6_best_effort c6World rfl).2.2.1 c6BadDisk rfl⟩

/-- Claim C7 counterexample: a logical disk with an empty-string `DeviceID`
produces a volume whose drive letter is present (the empty string) yet keyed
equal to the absent key, so the stable sort leaves it before an absent-letter
volume: absent letters do not come before all volumes that have one. -/
theorem C7_counterexample :
    (getVolumesForDisk c7Disk).map (fun v => v.driveLetter) = [some (""), none] ∧
      ¬ absentLettersFirst (getVolumesForDisk c7Disk) := by
  decide

/-- Claim C7 (amended): a device's volumes are sorted by case-folded drive letter
with an absent letter keyed as the empty string; consequently every volume with
an absent letter comes before every volume with a non-empty letter, while a
volume with an empty-string letter ties with the absent ones. -/
theorem C7_volumes_sorted (disk : WmiDiskDrive) :
    (getVolumesForDisk disk).Pairwise volRel ∧
      ∀ i j : Fin (getVolumesForDisk disk).length,
        ((getVolumesForDisk disk).get i).driveLetter = none →
        ¬ ((getVolumesForDisk disk).get j).driveLetter = none →
        ¬ ((getVolumesForDisk disk).get j).driveLetter = some ("") →
        (i : Nat) < (j : Nat) := by
  have hp : (getVolumesForDisk disk).Pairwise volRel :=
    List.sorted_insertionSort volRel _
  refine ⟨hp, ?_⟩
  intro i j hi hjn hje
  rcases Nat.lt_trichotomy (i : Nat) (j : Nat) with h | h | h
  · exact h
  · exfalso
    have hij : i = j := Fin.ext h
    rw [hij] at hi
    exact hjn hi
  · exfalso
    have hji : j < i := h
    have hrel := List.pairwise_iff_get.mp hp j i hji
    cases hjl : ((getVolumesForDisk disk).get j).driveLetter with
    | none => exact hjn hjl
    | some s =>
      have hs : ¬ s = "" := by
        intro hcon
        rw [hcon] at hjl
        exact hje hjl
      unfold volRel volKeyLe at hrel
      rw [hi, hjl] at hrel
      simp only [Option.getD_some, Option.getD_none] at hrel
      have hkey : caseFoldKey ("") = [] := rfl
      rw [hkey] at hrel
      cases hsd : s.data with
      | nil => exact (data_ne_nil_of_ne_empty s hs) hsd
      | cons c cs =>
        rw [show caseFoldKey s = s.data.map Char.toLower from rfl, hsd] at hrel
        simp [lexLeChars] at hrel

/-- Claim C7 witness: for a disk with one absent-letter volume and one volume
lettered `E:`, the sorted output is pairwise ordered and the absent-letter
volume (index 0) precedes the lettered one (index 1). -/
theorem C7_witness :
    (getVolumesForDisk c7SortedDisk).Pairwise volRel ∧ (0 : Nat) < (1 : Nat) :=
  ⟨(C7_volumes_sorted c7SortedDisk).1,
    (C7_volumes_sorted c7SortedDisk).2 ⟨0, by decide⟩ ⟨1, by decide⟩
      (by decide) (by decide) (by decide)⟩

/-- Claim C8: `start()` on a running watcher is a no-op (so the background thread
is started at most once — a second `start` after any `start` emits no action),
`stop()` on a stopped watcher is a no-op, and every wait `stop()` performs is
bounded by 2500 milliseconds. -/
theorem C8_watcher_idempotence (w : WatcherState) :
    (w.started = true → watcherStart w = (w, [])) ∧
      ((watcherStart (watcherStart w).1).2 = []) ∧
      (w.started = false → watcherStop w = (w, [])) ∧
      (∀ ms, WatchAction.threadWait ms ∈ (watcherStop w).2 → ms ≤ 2500) := by
  refine ⟨?_, ?_, ?_, ?_⟩
  · intro h
    unfold watcherStart
    rw [if_pos h]
  · cases hw : w.started
    · simp [watcherStart, hw]
    · simp [watcherStart, hw]
  · intro h
    unfold watcherStop
    rw [h]
    rfl
  · intro ms hmem
    unfold watcherStop at hmem
    cases hw : w.started
    · rw [hw] at hmem
      simp at hmem
    · rw [hw] at hmem
      simp only [Bool.not_true, if_false, List.mem_cons, List.not_mem_nil, or_false,
        WatchAction.threadWait.injEq, reduceCtorEq, false_or] at hmem
      omega

/-- Claim C8 witness: a running watcher's `start` and a stopped watcher's `stop`
return unchanged states with no actions, and the 2500 ms wait of a running
watcher's `stop` satisfies the bound. -/
theorem C8_witness :
    watcherStart { started := true } = ({ started := true }, []) ∧
      watcherStop { started := false } = ({ started := false }, []) ∧
      2500 ≤ 2500 :=
  ⟨(C8_watcher_idempotence { started := true }).1 rfl,
    (C8_watcher_idempotence { started := false }).2.2.1 rfl,
    (C8_watcher_idempotence { started := true }).2.2.2 2500 (by decide)⟩

/-- Claim C9: after a completed storage refresh, the volumes-by-instance-id cache
has an entry exactly for the cached storage-classified ids, so the volume lookup
in `get_storage_device_info` cannot miss for a classified id. -/
theorem C9_volume_map_matches_ids (w : StorageRefreshWorld) (st : StorageState)
    (h : storageRefresh w = .ok st) (k : String) :
    (dictGet st.cachedVolumesByInstanceId k).isSome = true ↔
      ∃ d ∈ st.cachedDeviceIds, d.instanceId = k := by
  unfold storageRefresh at h
  cases hb : w.baseRefreshOutcome with
  | error e =>
    rw [hb] at h
    cases h
  | ok u =>
    rw [hb] at h
    injection h with h
    subst h
    unfold scanStorageDevicesUncached
    rw [dictGet_isSome, foldl_dictInsert_any]
    simp only [List.any_nil, Bool.false_or]
    rw [List.any_eq_true]
    constructor
    · rintro ⟨iid, hiid, heq⟩
      exact ⟨UsbDeviceId.mk iid, List.mem_map.mpr ⟨iid, hiid, rfl⟩, beq_iff_eq.mp heq⟩
    · rintro ⟨d, hd, hdk⟩
      obtain ⟨iid, hiid, hmk⟩ := List.mem_map.mp hd
      refine ⟨iid, hiid, beq_iff_eq.mpr ?_⟩
      rw [← hdk, ← hmk]

/-- Claim C9 witness: the refresh of a world with one storage entity installs a
cache whose volume map has exactly that id as key. -/
theorem C9_witness :
    storageRefresh c9World = .ok c9State ∧
      ((dictGet c9State.cachedVolumesByInstanceId ("USBSTOR\\D1")).isSome = true ↔
        ∃ d ∈ c9State.cachedDeviceIds, d.instanceId = "USBSTOR\\D1") :=
  ⟨by decide, C9_volume_map_matches_ids c9World c9State (by decide) ("USBSTOR\\D1")⟩

/-- Claim C10: the base scan admits exactly the entities with a non-empty
`PNPDeviceID` starting with the case-sensitive `USB` (so a lower-case `usb`
identifier never appears in `list_base_device_ids`), while storage
classification upper-cases the identifier and every hardware-id alias before
comparing the `USBSTOR\` marker. -/
theorem C10_scan_and_classification (world : List PnPEntity) (e : PnPEntity) :
    (e ∈ scanUsbPnpEntities world ↔
        e ∈ world ∧ ¬ e.pnpDeviceID = "" ∧ pyStartsWith e.pnpDeviceID ("USB") = true) ∧
      (isStoragePnpEntity e = true ↔
        (pyStartsWith (pyUpper e.pnpDeviceID) usbstorMarker = true ∨
          ∃ hid ∈ e.hardwareID.getD [], pyStartsWith (pyUpper hid) usbstorMarker = true)) ∧
      (pyStartsWith e.pnpDeviceID ("usb") = true →
        UsbDeviceId.mk e.pnpDeviceID ∉ listBaseDeviceIds world) := by
  refine ⟨?_, ?_, ?_⟩
  · unfold scanUsbPnpEntities
    rw [List.mem_filter]
    simp [and_assoc]
  · unfold isStoragePnpEntity
    simp [List.any_eq_true]
  · intro hlower hmem
    have hmem2 := (List.mem_insertionSort idRel).mp hmem
    obtain ⟨e2, he2, hid⟩ := List.mem_map.mp hmem2
    have hscan := (List.mem_filter.mp he2).2
    have hpair : ¬ e2.pnpDeviceID = "" ∧ pyStartsWith e2.pnpDeviceID ("USB") = true := by
      simpa [Bool.and_eq_true] using hscan
    have hupper : pyStartsWith e2.pnpDeviceID ("USB") = true := hpair.2
    have hsame : e2.pnpDeviceID = e.pnpDeviceID := congrArg UsbDeviceId.instanceId hid
    rw [hsame] at hupper
    unfold pyStartsWith at hupper hlower
    have hU : e.pnpDeviceID.data.take 3 = ('U' :: 'S' :: 'B' :: []) := by
      simpa using hupper
    have hu : e.pnpDeviceID.data.take 3 = ('u' :: 's' :: 'b' :: []) := by
      simpa using hlower
    rw [hU] at hu
    simp at hu

/-- Claim C10 witness: an entity whose identifier starts with lower-case `usb` is
classified as storage by the case-insensitive check, yet its id is excluded from
the base listing of a world containing it. -/
theorem C10_witness :
    isStoragePnpEntity c10Entity = true ∧
      UsbDeviceId.mk ("usbstor\\X") ∉ listBaseDeviceIds [c10Entity] :=
  ⟨by decide, (C10_scan_and_classification [c10Entity] c10Entity).2.2 (by decide)⟩

end UManager
